import Mathlib

/-!
Verification development for the lunch-money client library.

The development shallowly embeds:
* the generated model layer (`CreateNewTransactions201Response.to_dict` /
  `from_dict` / wire properties) from
  `src/clients/python/lunchable/models/create_new_transactions201_response.py`;
* the generated resource client
  (`TransactionsGroupApi.group_transactions`, `ungroup_transactions`, their
  `_with_http_info` variants and their `_serialize` helpers) from
  `src/clients/python/lunchable/api/transactions_group_api.py`;
* the budgets wrapper (`upsert_budget`) from `src/lunchmoney/models/budgets.py`;
* a server-side state machine for the grouping domain, modelled from the
  specification (the server is an external collaborator, not part of the
  client sources).

JSON values are modelled by an inductive `Json` type; Python `None`/JSON
`null` is `Json.null`, and fallible Python code (raising exceptions) is
embedded with `Except`/`Option`.
-/

/-- A JSON value as produced by Python's `json.loads`: objects are ordered
key/value association lists, numbers are rationals. -/
inductive Json where
  | null : Json
  | bool (b : Bool) : Json
  | num (q : ℚ) : Json
  | str (s : String) : Json
  | arr (xs : List Json) : Json
  | obj (kvs : List (String × Json)) : Json
deriving Repr

/-- `obj.get(k)` on a decoded JSON object: Python maps JSON `null` to `None`,
so a key bound to `null` is indistinguishable from an absent key. -/
def getItem (kvs : List (String × Json)) (k : String) : Option Json :=
  match List.lookup k kvs with
  | some Json.null => none
  | v => v

/-- The keys of a JSON object (empty for non-objects). -/
def jsonKeys : Json → List String
  | Json.obj kvs => kvs.map Prod.fst
  | _ => []

/-- Typed decode failures raised at the deserialization boundary (pydantic
`ValidationError` for missing/ill-typed fields, Python `TypeError` for
structurally impossible inputs are both embedded as errors here). -/
inductive DecodeErr where
  | missingRequired : DecodeErr
  | typeMismatch : DecodeErr
deriving DecidableEq, Repr

/-- Decode a required JSON integer (a JSON number with denominator 1). -/
def decodeInt : Option Json → Except DecodeErr ℤ
  | some (Json.num q) => if q.den = 1 then .ok q.num else .error .typeMismatch
  | some _ => .error .typeMismatch
  | none => .error .missingRequired

/-- Decode a required JSON number. -/
def decodeNum : Option Json → Except DecodeErr ℚ
  | some (Json.num q) => .ok q
  | some _ => .error .typeMismatch
  | none => .error .missingRequired

/-- Decode a required JSON string. -/
def decodeStr : Option Json → Except DecodeErr String
  | some (Json.str s) => .ok s
  | some _ => .error .typeMismatch
  | none => .error .missingRequired

/-- Decode an optional JSON integer field (absent or `null` is `none`). -/
def decodeOptInt : Option Json → Except DecodeErr (Option ℤ)
  | none => .ok none
  | some (Json.num q) => if q.den = 1 then .ok (some q.num) else .error .typeMismatch
  | some _ => .error .typeMismatch

/-- Decode an optional JSON boolean field (absent or `null` is `none`). -/
def decodeOptBool : Option Json → Except DecodeErr (Option Bool)
  | none => .ok none
  | some (Json.bool b) => .ok (some b)
  | some _ => .error .typeMismatch

/-- Modelled from the spec: `TransactionObject` (imported by
`create_new_transactions201_response.py` but not present under `src/`).
Per the spec's data model, a transaction is "identified by an integer id;
has amount, currency, date, payee, status …, optional parent reference,
optional group flag". -/
structure TransactionObject where
  id : ℤ
  amount : ℚ
  currency : String
  date : String
  payee : String
  status : String
  parent_id : Option ℤ
  is_group : Option Bool
deriving DecidableEq, Repr

/-- Modelled from the spec: serialization of `TransactionObject` in the
generated-model style (aliased property names, unset optional fields
omitted). -/
def TransactionObject.to_dict (t : TransactionObject) : Json :=
  Json.obj
    ([("id", Json.num (t.id : ℚ)), ("amount", Json.num t.amount),
      ("currency", Json.str t.currency), ("date", Json.str t.date),
      ("payee", Json.str t.payee), ("status", Json.str t.status)] ++
      (match t.parent_id with
       | some p => [("parent_id", Json.num (p : ℚ))]
       | none => []) ++
      (match t.is_group with
       | some b => [("is_group", Json.bool b)]
       | none => []))

/-- Modelled from the spec: deserialization of `TransactionObject` in the
generated-model style (`None` input yields `none`, non-objects and ill-typed
fields fail with a decode error). -/
def TransactionObject.from_dict : Json → Except DecodeErr (Option TransactionObject)
  | Json.null => .ok none
  | Json.obj kvs => do
      let i ← decodeInt (getItem kvs "id")
      let a ← decodeNum (getItem kvs "amount")
      let c ← decodeStr (getItem kvs "currency")
      let d ← decodeStr (getItem kvs "date")
      let p ← decodeStr (getItem kvs "payee")
      let st ← decodeStr (getItem kvs "status")
      let pid ← decodeOptInt (getItem kvs "parent_id")
      let ig ← decodeOptBool (getItem kvs "is_group")
      pure (some ⟨i, a, c, d, p, st, pid, ig⟩)
  | _ => .error .typeMismatch

/-- Modelled from the spec: `SkippedExistingExternalIdObject` (referenced by
`create_new_transactions201_response.py` but not present under `src/`); the
spec does not detail it, so it is modelled as a record holding the skipped
external id, in the generated-model style. -/
structure SkippedExistingExternalIdObject where
  external_id : String
deriving DecidableEq, Repr

/-- Modelled from the spec: serialization of `SkippedExistingExternalIdObject`
in the generated-model style. -/
def SkippedExistingExternalIdObject.to_dict (x : SkippedExistingExternalIdObject) : Json :=
  Json.obj [("external_id", Json.str x.external_id)]

/-- Modelled from the spec: deserialization of `SkippedExistingExternalIdObject`
in the generated-model style. -/
def SkippedExistingExternalIdObject.from_dict :
    Json → Except DecodeErr (Option SkippedExistingExternalIdObject)
  | Json.null => .ok none
  | Json.obj kvs => do
      let e ← decodeStr (getItem kvs "external_id")
      pure (some ⟨e⟩)
  | _ => .error .typeMismatch

/-- The `CreateNewTransactions201Response` model: a required list of
transactions and an optional list of skipped external ids
(`create_new_transactions201_response.py`, lines 27–33). -/
structure CreateNewTransactions201Response where
  transactions : List TransactionObject
  skipped_existing_external_ids : Option (List SkippedExistingExternalIdObject)
deriving DecidableEq, Repr

namespace CreateNewTransactions201Response

/-- The wire property names of the model (`__properties`, line 33 of the
source). -/
def properties : List String :=
  ["transactions", "skipped_existing_external_ids"]

/-- The in-memory field names of the model, as declared on lines 31–32 of the
source. -/
def memoryFieldNames : List String :=
  ["transactions", "skipped_existing_external_ids"]

/-- `to_dict` (source lines 56–88): a by-alias dump excluding `None`-valued
fields, with each nested item serialized by its own `to_dict`. -/
def to_dict (m : CreateNewTransactions201Response) : Json :=
  Json.obj
    ([("transactions", Json.arr (m.transactions.map TransactionObject.to_dict))] ++
      (match m.skipped_existing_external_ids with
       | some xs =>
           [("skipped_existing_external_ids",
             Json.arr (xs.map SkippedExistingExternalIdObject.to_dict))]
       | none => []))

/-- Decode a JSON list of transactions: each item goes through
`TransactionObject.from_dict`, and a `null` item (which Python would pass as
`None` into the `List[TransactionObject]` validator) is a validation error. -/
def decodeTxnList : List Json → Except DecodeErr (List TransactionObject)
  | [] => .ok []
  | j :: js =>
      match TransactionObject.from_dict j with
      | .error e => .error e
      | .ok none => .error .typeMismatch
      | .ok (some t) =>
          match decodeTxnList js with
          | .error e => .error e
          | .ok ts => .ok (t :: ts)

/-- Decode a JSON list of skipped-external-id objects. -/
def decodeSkippedList : List Json → Except DecodeErr (List SkippedExistingExternalIdObject)
  | [] => .ok []
  | j :: js =>
      match SkippedExistingExternalIdObject.from_dict j with
      | .error e => .error e
      | .ok none => .error .typeMismatch
      | .ok (some x) =>
          match decodeSkippedList js with
          | .error e => .error e
          | .ok xs => .ok (x :: xs)

/-- The object branch of `from_dict`: the `transactions` key is required (a
missing or `null` value makes `model_validate` fail) and both lists are
decoded item-wise. -/
def fromObj (kvs : List (String × Json)) :
    Except DecodeErr (Option CreateNewTransactions201Response) :=
  match getItem kvs "transactions" with
  | none => .error .missingRequired
  | some (Json.arr items) =>
      match decodeTxnList items with
      | .error e => .error e
      | .ok ts =>
          match getItem kvs "skipped_existing_external_ids" with
          | none => .ok (some ⟨ts, none⟩)
          | some (Json.arr sitems) =>
              match decodeSkippedList sitems with
              | .error e => .error e
              | .ok xs => .ok (some ⟨ts, some xs⟩)
          | some _ => .error .typeMismatch
  | some _ => .error .typeMismatch

/-- `from_dict` (source lines 90–103): `None` input yields `None`; a non-dict
input is handed to `model_validate`, which rejects it; a dict is validated
field-wise by `fromObj`. -/
def from_dict : Json → Except DecodeErr (Option CreateNewTransactions201Response)
  | Json.null => .ok none
  | Json.obj kvs => fromObj kvs
  | _ => .error .typeMismatch

end CreateNewTransactions201Response

/-- Modelled from the spec: `GroupTransactionsRequest` (imported by
`transactions_group_api.py` but not present under `src/`); per the spec's
external-interface section, the `POST /transactions/group` body is the list
of transaction ids. -/
structure GroupTransactionsRequest where
  transaction_ids : List ℤ
deriving DecidableEq, Repr

/-- Modelled from the spec: the wire body carried by a group request is the
JSON list of the transaction ids. -/
def GroupTransactionsRequest.to_wire (r : GroupTransactionsRequest) : Json :=
  Json.arr (r.transaction_ids.map (fun i => Json.num (i : ℚ)))

/-- The argument record that a generated `_serialize` helper passes to
`api_client.param_serialize` (the external `ApiClient` collaborator). Header
maps are modelled as association lists updated by `headerSet`. -/
structure RequestSerialized (β : Type) where
  method : String
  resource_path : String
  path_params : List (String × ℤ)
  query_params : List (String × String)
  header_params : List (String × String)
  body : Option β
  post_params : List (String × String)
  auth_settings : List String
deriving Repr

/-- Assign a header key in an association-list header map (Python dict
assignment: any previous binding is replaced). -/
def headerSet (hs : List (String × String)) (k : String) (v : String) :
    List (String × String) :=
  (hs.filter (fun p => p.1 ≠ k)) ++ [(k, v)]

/-- `TransactionsGroupApi._group_transactions_serialize` (source lines
239–300): builds the `param_serialize` arguments for a group call. The
`select_header_accept` / `select_header_content_type` functions belong to the
external `ApiClient` and are passed as parameters. -/
def group_transactions_serialize
    (select_header_accept : List String → Option String)
    (select_header_content_type : List String → Option String)
    (headers : List (String × String)) (content_type : Option String)
    (group_transactions_request : GroupTransactionsRequest) :
    RequestSerialized GroupTransactionsRequest :=
  let header_params := headers
  let header_params :=
    if (List.lookup "Accept" header_params).isSome then header_params
    else
      match select_header_accept ["application/json"] with
      | some a => headerSet header_params "Accept" a
      | none => header_params
  let header_params :=
    match content_type with
    | some c => headerSet header_params "Content-Type" c
    | none =>
        match select_header_content_type ["application/json"] with
        | some d => headerSet header_params "Content-Type" d
        | none => header_params
  { method := "POST"
    resource_path := "/transactions/group"
    path_params := []
    query_params := []
    header_params := header_params
    body := some group_transactions_request
    post_params := []
    auth_settings := ["cookieAuth", "bearerSecurity"] }

/-- `TransactionsGroupApi._ungroup_transactions_serialize` (source lines
508–559): builds the `param_serialize` arguments for an ungroup call; the
group id travels as the `id` path parameter and there is no body. -/
def ungroup_transactions_serialize
    (select_header_accept : List String → Option String)
    (headers : List (String × String)) (id : ℤ) :
    RequestSerialized Json :=
  let path_params : List (String × ℤ) := [("id", id)]
  let header_params := headers
  let header_params :=
    if (List.lookup "Accept" header_params).isSome then header_params
    else
      match select_header_accept ["application/json"] with
      | some a => headerSet header_params "Accept" a
      | none => header_params
  { method := "DELETE"
    resource_path := "/transactions/group/\x7bid\x7d"
    path_params := path_params
    query_params := []
    header_params := header_params
    body := none
    post_params := []
    auth_settings := ["cookieAuth", "bearerSecurity"] }

/-- The `_response_types_map` literal of `group_transactions` (source lines
91–97). -/
def group_transactions_response_types_map : List (String × Option String) :=
  [("201", some "GroupTransactions201Response"),
   ("400", some "ErrorResponseObject"),
   ("401", some "ErrorResponseObject"),
   ("429", some "ErrorResponseObject"),
   ("500", some "ErrorResponseObject")]

/-- The `_response_types_map` literal of `group_transactions_with_http_info`
(source lines 159–165), a separate copy in the source. -/
def group_transactions_with_http_info_response_types_map :
    List (String × Option String) :=
  [("201", some "GroupTransactions201Response"),
   ("400", some "ErrorResponseObject"),
   ("401", some "ErrorResponseObject"),
   ("429", some "ErrorResponseObject"),
   ("500", some "ErrorResponseObject")]

/-- The `_response_types_map` literal of `ungroup_transactions` (source lines
356–362). -/
def ungroup_transactions_response_types_map : List (String × Option String) :=
  [("204", none),
   ("401", some "ErrorResponseObject"),
   ("404", some "ErrorResponseObject"),
   ("429", some "ErrorResponseObject"),
   ("500", some "ErrorResponseObject")]

/-- The `_response_types_map` literal of `ungroup_transactions_with_http_info`
(source lines 426–432), a separate copy in the source. -/
def ungroup_transactions_with_http_info_response_types_map :
    List (String × Option String) :=
  [("204", none),
   ("401", some "ErrorResponseObject"),
   ("404", some "ErrorResponseObject"),
   ("429", some "ErrorResponseObject"),
   ("500", some "ErrorResponseObject")]

/-- The generated `ApiResponse` wrapper returned by the `_with_http_info`
variants: status code, headers, deserialized data and the raw body. -/
structure ApiResponse (δ : Type) where
  status_code : ℕ
  headers : List (String × String)
  data : δ
  raw_data : String
deriving Repr

/-- `TransactionsGroupApi.group_transactions` (source lines 39–105): serialize
the request, call the transport, deserialize with the status-to-type map and
return the `.data` component. `call_api` and `response_deserialize` are the
external `ApiClient` collaborator, abstracted as parameters (`ρ` is its raw
rest-response type, `δ` its deserialized-data type). -/
def group_transactions {ρ δ : Type}
    (call_api : RequestSerialized GroupTransactionsRequest → ρ)
    (response_deserialize : List (String × Option String) → ρ → ApiResponse δ)
    (select_header_accept select_header_content_type : List String → Option String)
    (headers : List (String × String)) (content_type : Option String)
    (group_transactions_request : GroupTransactionsRequest) : δ :=
  let param := group_transactions_serialize select_header_accept
    select_header_content_type headers content_type group_transactions_request
  let response_data := call_api param
  (response_deserialize group_transactions_response_types_map response_data).data

/-- `TransactionsGroupApi.group_transactions_with_http_info` (source lines
107–173): identical pipeline, but the whole `ApiResponse` is returned and the
status-to-type map is this function's own literal copy. -/
def group_transactions_with_http_info {ρ δ : Type}
    (call_api : RequestSerialized GroupTransactionsRequest → ρ)
    (response_deserialize : List (String × Option String) → ρ → ApiResponse δ)
    (select_header_accept select_header_content_type : List String → Option String)
    (headers : List (String × String)) (content_type : Option String)
    (group_transactions_request : GroupTransactionsRequest) : ApiResponse δ :=
  let param := group_transactions_serialize select_header_accept
    select_header_content_type headers content_type group_transactions_request
  let response_data := call_api param
  response_deserialize group_transactions_with_http_info_response_types_map response_data

/-- `TransactionsGroupApi.ungroup_transactions` (source lines 302–370):
serialize the ungroup request, call the transport, deserialize with the
status-to-type map and return the `.data` component. -/
def ungroup_transactions {ρ δ : Type}
    (call_api : RequestSerialized Json → ρ)
    (response_deserialize : List (String × Option String) → ρ → ApiResponse δ)
    (select_header_accept : List String → Option String)
    (headers : List (String × String)) (id : ℤ) : δ :=
  let param := ungroup_transactions_serialize select_header_accept headers id
  let response_data := call_api param
  (response_deserialize ungroup_transactions_response_types_map response_data).data

/-- `TransactionsGroupApi.ungroup_transactions_with_http_info` (source lines
372–440): identical pipeline, but the whole `ApiResponse` is returned and the
status-to-type map is this function's own literal copy. -/
def ungroup_transactions_with_http_info {ρ δ : Type}
    (call_api : RequestSerialized Json → ρ)
    (response_deserialize : List (String × Option String) → ρ → ApiResponse δ)
    (select_header_accept : List String → Option String)
    (headers : List (String × String)) (id : ℤ) : ApiResponse δ :=
  let param := ungroup_transactions_serialize select_header_accept headers id
  let response_data := call_api param
  response_deserialize ungroup_transactions_with_http_info_response_types_map response_data

/-- `_LunchMoneyBudgets.upsert_budget` (source `src/lunchmoney/models/budgets.py`,
lines 115–159), viewed as a function of the parsed JSON object returned by the
external `_make_request` transport: the function returns
`response_data["category_group"]`, and a Python dict subscript on a missing
key raises `KeyError`, embedded as an `Except.error`. -/
def upsert_budget (response_data : List (String × Json)) : Except String Json :=
  match List.lookup "category_group" response_data with
  | some v => Except.ok v
  | none => Except.error "KeyError: category_group"

/-- Modelled from the spec: a server-side transaction record for the grouping
domain (spec section 3): integer id, amount, currency, optional parent
reference (`parent_id`) and group reference (`group_id`), a group flag, and —
for group transactions — the list of child ids. -/
structure Txn where
  id : ℤ
  amount : ℤ
  currency : String
  parent_id : Option ℤ
  group_id : Option ℤ
  is_group : Bool
  children : List ℤ
deriving DecidableEq, Repr

/-- Modelled from the spec: the server's transaction store, with a fresh-id
counter ("server assigns new id") and the user's default currency. The
server itself is an external collaborator, absent from `src/`. -/
structure ServerState where
  txns : List Txn
  next_id : ℤ
  default_currency : String
deriving DecidableEq, Repr

/-- `GET /transactions/{id}`: an individual transaction lookup by id. -/
def findTxn (s : ServerState) (i : ℤ) : Option Txn :=
  s.txns.find? (fun t => t.id == i)

/-- Modelled from the spec: a standard listing call (`GET /transactions`)
returns the transactions that are not hidden inside a group — grouped
children carry a `parent_id` and are excluded. -/
def listing (s : ServerState) : List Txn :=
  s.txns.filter (fun t => t.parent_id == none)

/-- Modelled from the spec: id `i` "references an existing, ungrouped
transaction" — it resolves, has no parent and is not itself a group. -/
def okToGroup (s : ServerState) (i : ℤ) : Bool :=
  match findTxn s i with
  | some c => c.parent_id == none && !c.is_group
  | none => false

/-- Conversion of a child's amount into the default currency `dc`, using the
server-determined exchange-rate function `rate` (the spec leaves the precise
rate out of scope). -/
def convertedAmount (rate : String → ℤ) (dc : String) (t : Txn) : ℤ :=
  if t.currency = dc then t.amount else rate t.currency * t.amount

/-- Whether a list of children all share the currency of the first child. -/
def sameCurrencyList : List Txn → Bool
  | [] => true
  | c :: rest => rest.all (fun d => d.currency == c.currency)

/-- The currency of the first child, with a fallback. -/
def firstCurrency (cs : List Txn) (dflt : String) : String :=
  match cs with
  | c :: _ => c.currency
  | [] => dflt

/-- Mark a child that enters a group: set its `parent_id`/`group_id` to the
group's id (spec lifecycle: "server … marks children with
`parent_id`/`group_id`"). -/
def updChild (gid : ℤ) (ids : List ℤ) (t : Txn) : Txn :=
  if t.id ∈ ids then { t with parent_id := some gid, group_id := some gid } else t

/-- The outcome of a `POST /transactions/group` call: a 201 with the created
group transaction, or a 400 validation error. -/
inductive GroupOutcome where
  | created (t : Txn) : GroupOutcome
  | validationError : GroupOutcome
deriving DecidableEq, Repr

/-- Modelled from the spec: the server's group operation (spec section 4.1).
It fails with a validation error if fewer than 2 ids are given or any id does
not reference an existing, ungrouped transaction; otherwise it creates a new
group transaction whose amount is the sum of the children's amounts
(converted to the default currency when the children's currencies are mixed),
marks the children with `parent_id`/`group_id`, and returns the new
transaction. -/
def serverGroup (rate : String → ℤ) (s : ServerState) (ids : List ℤ) :
    ServerState × GroupOutcome :=
  if ids.length < 2 then (s, GroupOutcome.validationError)
  else if ids.all (okToGroup s) then
    let cs := ids.filterMap (findTxn s)
    let same := sameCurrencyList cs
    let amt :=
      if same then (cs.map Txn.amount).sum
      else (cs.map (convertedAmount rate s.default_currency)).sum
    let gcur := if same then firstCurrency cs s.default_currency else s.default_currency
    let g : Txn :=
      { id := s.next_id, amount := amt, currency := gcur, parent_id := none,
        group_id := none, is_group := true, children := ids }
    ({ txns := s.txns.map (updChild s.next_id ids) ++ [g],
       next_id := s.next_id + 1,
       default_currency := s.default_currency }, GroupOutcome.created g)
  else (s, GroupOutcome.validationError)

/-- The outcome of a `DELETE /transactions/group/{id}` call: a 204 with no
content, or a 404 when the id does not reference an existing group. -/
inductive UngroupOutcome where
  | noContent : UngroupOutcome
  | notFound : UngroupOutcome
deriving DecidableEq, Repr

/-- Clear the group marks of a detached child (spec lifecycle: "children
detach (`parent_id` cleared) and reappear in standard listings"). -/
def clearChild (gid : ℤ) (t : Txn) : Txn :=
  if t.parent_id == some gid then { t with parent_id := none, group_id := none } else t

/-- Modelled from the spec: the server's ungroup operation (spec section 4.1).
If the id references an existing group, the group transaction is deleted and
its children detach; otherwise the call fails with not-found. -/
def serverUngroup (s : ServerState) (gid : ℤ) : ServerState × UngroupOutcome :=
  match s.txns.find? (fun t => t.id == gid && t.is_group) with
  | none => (s, UngroupOutcome.notFound)
  | some _ =>
      ({ txns := (s.txns.filter (fun t => t.id != gid)).map (clearChild gid),
         next_id := s.next_id,
         default_currency := s.default_currency }, UngroupOutcome.noContent)

/-- Wellformedness of a server state: every stored transaction's id is below
the fresh-id counter. -/
def ServerState.wf (s : ServerState) : Prop :=
  ∀ t ∈ s.txns, t.id < s.next_id

instance (s : ServerState) : Decidable s.wf := by
  unfold ServerState.wf; infer_instance

/-- A concrete model value with the optional field unset, used as an explicit
input for evaluation. -/
def exModel : CreateNewTransactions201Response :=
  { transactions := [], skipped_existing_external_ids := none }

/-- A concrete transaction item with every field set. -/
def exTxn : TransactionObject :=
  { id := 7, amount := 5, currency := "USD", date := "2021-04-01",
    payee := "store", status := "cleared", parent_id := some 3, is_group := some false }

/-- A concrete model value with all fields set. -/
def exModelFull : CreateNewTransactions201Response :=
  { transactions := [exTxn], skipped_existing_external_ids := some [⟨"abc"⟩] }

/-- A concrete exchange-rate function (identity rate). -/
def exRate : String → ℤ := fun _ => 1

/-- A concrete server state holding three ungrouped USD transactions with ids
1, 2, 3. -/
def exState : ServerState :=
  { txns :=
      [{ id := 1, amount := 1, currency := "USD", parent_id := none,
         group_id := none, is_group := false, children := [] },
       { id := 2, amount := 2, currency := "USD", parent_id := none,
         group_id := none, is_group := false, children := [] },
       { id := 3, amount := 3, currency := "USD", parent_id := none,
         group_id := none, is_group := false, children := [] }],
    next_id := 4, default_currency := "USD" }

/-- The group transaction the server creates for `exState` and ids 1,2,3. -/
def exGroupTxn : Txn :=
  { id := 4, amount := 6, currency := "USD", parent_id := none,
    group_id := none, is_group := true, children := [1, 2, 3] }

/-- The server state after grouping 1,2,3 in `exState`. -/
def exStateGrouped : ServerState :=
  { txns :=
      [{ id := 1, amount := 1, currency := "USD", parent_id := some 4,
         group_id := some 4, is_group := false, children := [] },
       { id := 2, amount := 2, currency := "USD", parent_id := some 4,
         group_id := some 4, is_group := false, children := [] },
       { id := 3, amount := 3, currency := "USD", parent_id := some 4,
         group_id := some 4, is_group := false, children := [] },
       exGroupTxn],
    next_id := 5, default_currency := "USD" }

/-- The spec's worked example: transactions 10 (5.00 USD) and 11 (3.00 USD);
amounts are carried in minor currency units (cents), so 5.00 USD is 500. -/
def exAmountState : ServerState :=
  { txns :=
      [{ id := 10, amount := 500, currency := "USD", parent_id := none,
         group_id := none, is_group := false, children := [] },
       { id := 11, amount := 300, currency := "USD", parent_id := none,
         group_id := none, is_group := false, children := [] }],
    next_id := 12, default_currency := "USD" }

/-- The group transaction created for the spec's worked example: amount
8.00 USD (800 cents). -/
def exAmountGroup : Txn :=
  { id := 12, amount := 800, currency := "USD", parent_id := none,
    group_id := none, is_group := true, children := [10, 11] }

/-- The server state after grouping 10 and 11 in `exAmountState`. -/
def exAmountStateGrouped : ServerState :=
  { txns :=
      [{ id := 10, amount := 500, currency := "USD", parent_id := some 12,
         group_id := some 12, is_group := false, children := [] },
       { id := 11, amount := 300, currency := "USD", parent_id := some 12,
         group_id := some 12, is_group := false, children := [] },
       exAmountGroup],
    next_id := 13, default_currency := "USD" }

theorem txn_from_dict_to_dict (t : TransactionObject) :
    TransactionObject.from_dict (TransactionObject.to_dict t) = .ok (some t) := by
  rcases t with ⟨i, a, c, d, p, st, pid, ig⟩
  rcases pid with _ | p' <;> rcases ig with _ | b <;>
    simp [TransactionObject.to_dict, TransactionObject.from_dict, getItem,
      List.lookup, decodeInt, decodeNum, decodeStr, decodeOptInt, decodeOptBool,
      Rat.intCast_den, Rat.intCast_num, Bind.bind, Except.bind, Pure.pure, Except.pure]

theorem skipped_from_dict_to_dict (x : SkippedExistingExternalIdObject) :
    SkippedExistingExternalIdObject.from_dict (SkippedExistingExternalIdObject.to_dict x) =
      .ok (some x) := by
  rcases x with ⟨e⟩
  simp [SkippedExistingExternalIdObject.to_dict, SkippedExistingExternalIdObject.from_dict,
    getItem, List.lookup, decodeStr]

theorem CreateNewTransactions201Response.decodeTxnList_round_trip
    (ts : List TransactionObject) :
    CreateNewTransactions201Response.decodeTxnList (ts.map TransactionObject.to_dict) =
      .ok ts := by
  induction ts with
  | nil => rfl
  | cons t ts ih =>
      simp [CreateNewTransactions201Response.decodeTxnList, txn_from_dict_to_dict, ih]

theorem CreateNewTransactions201Response.decodeSkippedList_round_trip
    (xs : List SkippedExistingExternalIdObject) :
    CreateNewTransactions201Response.decodeSkippedList
      (xs.map SkippedExistingExternalIdObject.to_dict) = .ok xs := by
  induction xs with
  | nil => rfl
  | cons x xs ih =>
      simp [CreateNewTransactions201Response.decodeSkippedList,
        skipped_from_dict_to_dict, ih]

theorem updChild_id (gid : ℤ) (ids : List ℤ) (t : Txn) :
    (updChild gid ids t).id = t.id := by
  unfold updChild; split <;> rfl

theorem clearChild_id (gid : ℤ) (t : Txn) :
    (clearChild gid t).id = t.id := by
  unfold clearChild; split <;> rfl

theorem okToGroup_spec {s : ServerState} {i : ℤ} (h : okToGroup s i = true) :
    ∃ c, findTxn s i = some c ∧ c ∈ s.txns ∧ c.id = i ∧
      c.parent_id = none ∧ c.is_group = false := by
  unfold okToGroup at h
  cases hf : findTxn s i with
  | none => rw [hf] at h; exact absurd h (by simp)
  | some c =>
      rw [hf] at h
      have hid : c.id = i := by
        have := List.find?_some hf
        simpa using this
      have hmem : c ∈ s.txns := List.mem_of_find?_eq_some hf
      rw [Bool.and_eq_true] at h
      refine ⟨c, rfl, hmem, hid, ?_, ?_⟩
      · simpa using h.1
      · simpa using h.2

theorem find?_id_map (f : Txn → Txn) (hf : ∀ t, (f t).id = t.id)
    (l : List Txn) (i : ℤ) :
    (l.map f).find? (fun t => t.id == i) =
      (l.find? (fun t => t.id == i)).map f := by
  have hcomp : ((fun t : Txn => t.id == i) ∘ f) = fun t : Txn => t.id == i := by
    funext t; simp [Function.comp, hf]
  rw [List.find?_map, hcomp]

theorem map_filterMap_findTxn (s : ServerState) (f : Txn → ℤ) :
    ∀ ids : List ℤ, ids.all (okToGroup s) = true →
      (ids.filterMap (findTxn s)).map f =
        ids.map (fun i => ((findTxn s i).map f).getD 0) := by
  intro ids h
  induction ids with
  | nil => rfl
  | cons i is ih =>
      rw [List.all_cons, Bool.and_eq_true] at h
      obtain ⟨c, hc, -⟩ := okToGroup_spec h.1
      simp [List.filterMap_cons, hc, ih h.2]

/-- Claim C1: for every call of the group operation with fewer than 2
transaction ids, the call fails with a validation error and never returns a
created group transaction; the client maps the resulting 400 status to the
typed `ErrorResponseObject`. -/
theorem group_fewer_than_two_ids_fails (rate : String → ℤ) (s : ServerState)
    (ids : List ℤ) (h : ids.length < 2) :
    (serverGroup rate s ids).2 = GroupOutcome.validationError ∧
      (∀ t, (serverGroup rate s ids).2 ≠ GroupOutcome.created t) ∧
      List.lookup "400" group_transactions_response_types_map =
        some (some "ErrorResponseObject") := by
  unfold serverGroup
  rw [if_pos h]
  exact ⟨rfl, fun t hc => GroupOutcome.noConfusion hc, by rfl⟩

theorem group_fewer_than_two_ids_fails_witness :
    ([5] : List ℤ).length < 2 ∧
      ((serverGroup exRate exState [5]).2 = GroupOutcome.validationError ∧
        (∀ t, (serverGroup exRate exState [5]).2 ≠ GroupOutcome.created t) ∧
        List.lookup "400" group_transactions_response_types_map =
          some (some "ErrorResponseObject")) :=
  ⟨by decide, group_fewer_than_two_ids_fails exRate exState [5] (by decide)⟩

/-- Claim C2: for every valid model value with all fields set, deserializing
the serialization yields the model back:
`from_dict (to_dict m) = .ok (some m)` (the byte-level `to_json`/`from_json`
differ from the dict level only by `json.dumps`/`json.loads` of the external
json library, which round-trips JSON values). -/
theorem from_wire_to_wire_round_trip (m : CreateNewTransactions201Response)
    (h : m.skipped_existing_external_ids.isSome) :
    CreateNewTransactions201Response.from_dict
      (CreateNewTransactions201Response.to_dict m) = .ok (some m) := by
  rcases m with ⟨ts, sk⟩
  rcases sk with _ | xs
  · simp at h
  · simp [CreateNewTransactions201Response.to_dict,
      CreateNewTransactions201Response.from_dict,
      CreateNewTransactions201Response.fromObj, getItem, List.lookup,
      CreateNewTransactions201Response.decodeTxnList_round_trip,
      CreateNewTransactions201Response.decodeSkippedList_round_trip]

theorem from_wire_to_wire_round_trip_witness :
    exModelFull.skipped_existing_external_ids.isSome ∧
      CreateNewTransactions201Response.from_dict
        (CreateNewTransactions201Response.to_dict exModelFull) = .ok (some exModelFull) :=
  ⟨by decide, from_wire_to_wire_round_trip exModelFull (by decide)⟩

/-- Claim C9: `upsert_budget` returns the value of the response's
`category_group` key, and fails with a `KeyError` exactly when the response
object does not contain that key — it never returns a value in that case. -/
theorem upsert_budget_category_group (response_data : List (String × Json)) :
    (∀ v, List.lookup "category_group" response_data = some v →
        upsert_budget response_data = Except.ok v) ∧
      (List.lookup "category_group" response_data = none →
        upsert_budget response_data = Except.error "KeyError: category_group") ∧
      (List.lookup "category_group" response_data = none →
        ∀ v, upsert_budget response_data ≠ Except.ok v) := by
  refine ⟨fun v hv => ?_, fun hn => ?_, fun hn v hv => ?_⟩
  · unfold upsert_budget; rw [hv]
  · unfold upsert_budget; rw [hn]
  · unfold upsert_budget at hv; rw [hn] at hv; exact Except.noConfusion hv

theorem upsert_budget_category_group_witness :
    (List.lookup "category_group" [("category_group", Json.num 3)] = some (Json.num 3) ∧
        upsert_budget [("category_group", Json.num 3)] = Except.ok (Json.num 3)) ∧
      (List.lookup "category_group" ([] : List (String × Json)) = none ∧
        upsert_budget [] = Except.error "KeyError: category_group") :=
  ⟨⟨by rfl, (upsert_budget_category_group [("category_group", Json.num 3)]).1
      (Json.num 3) (by rfl)⟩,
    ⟨by rfl, (upsert_budget_category_group []).2.1 (by rfl)⟩⟩

/-- Claim C10: the plain `group_transactions`/`ungroup_transactions` return
exactly the `.data` component of their `_with_http_info` variants for the
same arguments and transport: both serialize via the same `_serialize`
helper and their status-to-type map literals coincide. -/
theorem plain_equals_with_http_info {ρ δ ρ2 δ2 : Type}
    (gcall : RequestSerialized GroupTransactionsRequest → ρ)
    (gdeser : List (String × Option String) → ρ → ApiResponse δ)
    (ucall : RequestSerialized Json → ρ2)
    (udeser : List (String × Option String) → ρ2 → ApiResponse δ2)
    (sa sc : List String → Option String) (hs : List (String × String))
    (ct : Option String) (req : GroupTransactionsRequest) (id : ℤ) :
    group_transactions gcall gdeser sa sc hs ct req =
      (group_transactions_with_http_info gcall gdeser sa sc hs ct req).data ∧
      ungroup_transactions ucall udeser sa hs id =
        (ungroup_transactions_with_http_info ucall udeser sa hs id).data ∧
      group_transactions_response_types_map =
        group_transactions_with_http_info_response_types_map ∧
      ungroup_transactions_response_types_map =
        ungroup_transactions_with_http_info_response_types_map :=
  ⟨rfl, rfl, rfl, rfl⟩

theorem plain_equals_with_http_info_witness :
    group_transactions (fun _ => (0 : ℕ)) (fun _ r => ⟨201, [], r, ""⟩)
        (fun _ => some "application/json") (fun _ => some "application/json")
        [] none ⟨[10, 11]⟩ =
      (group_transactions_with_http_info (fun _ => (0 : ℕ))
        (fun _ r => ⟨201, [], r, ""⟩) (fun _ => some "application/json")
        (fun _ => some "application/json") [] none ⟨[10, 11]⟩).data :=
  (plain_equals_with_http_info (fun _ => (0 : ℕ)) (fun _ r => ⟨201, [], r, ""⟩)
    (fun _ => (0 : ℕ)) (fun _ r => ⟨204, [], r, ""⟩)
    (fun _ => some "application/json") (fun _ => some "application/json")
    [] none ⟨[10, 11]⟩ 12).1

/-- Claim C5 counterexample: the status-to-type map of `group_transactions`
does not interpret exactly the four claimed statuses — it also maps status
500, so its key set is not the claimed `["201", "400", "401", "429"]`. -/
theorem group_status_map_not_exactly_four :
    ("500", some "ErrorResponseObject") ∈ group_transactions_response_types_map ∧
      "500" ∉ ["201", "400", "401", "429"] ∧
      group_transactions_response_types_map.map Prod.fst ≠
        ["201", "400", "401", "429"] := by
  refine ⟨by decide, by decide, by decide⟩

/-- Claim C5 (amended): a group call passes method POST, path
`/transactions/group` and the request (the list of transaction ids) as the
body to the transport, and its status-to-type map sends 201 to the created
group transaction type, 400/401/429 — and additionally 500 — to the typed
error object, with no other statuses mapped. -/
theorem group_post_contract (sa sc : List String → Option String)
    (hs : List (String × String)) (ct : Option String)
    (req : GroupTransactionsRequest) :
    (group_transactions_serialize sa sc hs ct req).method = "POST" ∧
      (group_transactions_serialize sa sc hs ct req).resource_path =
        "/transactions/group" ∧
      (group_transactions_serialize sa sc hs ct req).body = some req ∧
      req.to_wire = Json.arr (req.transaction_ids.map (fun i => Json.num (i : ℚ))) ∧
      List.lookup "201" group_transactions_response_types_map =
        some (some "GroupTransactions201Response") ∧
      List.lookup "400" group_transactions_response_types_map =
        some (some "ErrorResponseObject") ∧
      List.lookup "401" group_transactions_response_types_map =
        some (some "ErrorResponseObject") ∧
      List.lookup "429" group_transactions_response_types_map =
        some (some "ErrorResponseObject") ∧
      List.lookup "500" group_transactions_response_types_map =
        some (some "ErrorResponseObject") ∧
      group_transactions_response_types_map.map Prod.fst =
        ["201", "400", "401", "429", "500"] :=
  ⟨rfl, rfl, rfl, rfl, by rfl, by rfl, by rfl, by rfl, by rfl, by rfl⟩

theorem group_post_contract_witness :
    (group_transactions_serialize (fun _ => some "application/json")
        (fun _ => some "application/json") [] none ⟨[10, 11]⟩).method = "POST" ∧
      (group_transactions_serialize (fun _ => some "application/json")
        (fun _ => some "application/json") [] none ⟨[10, 11]⟩).body = some ⟨[10, 11]⟩ :=
  ⟨(group_post_contract (fun _ => some "application/json")
      (fun _ => some "application/json") [] none ⟨[10, 11]⟩).1,
    (group_post_contract (fun _ => some "application/json")
      (fun _ => some "application/json") [] none ⟨[10, 11]⟩).2.2.1⟩

/-- Claim C6 counterexample: at the concrete model `exModel`, it is not the
case that every wire key is distinct from the in-memory field names — the
wire key `transactions` is itself an in-memory field name. -/
theorem wire_names_not_distinct :
    ¬ (∀ k ∈ jsonKeys (CreateNewTransactions201Response.to_dict exModel),
        k ∉ CreateNewTransactions201Response.memoryFieldNames) := by
  intro hdist
  exact hdist "transactions" (by decide)
    (by simp [CreateNewTransactions201Response.memoryFieldNames])

/-- Claim C6 (amended): the wire encoding omits every unset optional field —
with `skipped_existing_external_ids` unset the wire keys are exactly
`["transactions"]`, and with it set they are exactly the two property
names — and the wire field names are the model's declared property names,
which for this model coincide with (rather than differ from) the in-memory
field names. -/
theorem to_wire_omits_unset (m : CreateNewTransactions201Response) :
    (m.skipped_existing_external_ids = none →
        jsonKeys (CreateNewTransactions201Response.to_dict m) = ["transactions"]) ∧
      (∀ xs, m.skipped_existing_external_ids = some xs →
        jsonKeys (CreateNewTransactions201Response.to_dict m) =
          ["transactions", "skipped_existing_external_ids"]) ∧
      (∀ k ∈ jsonKeys (CreateNewTransactions201Response.to_dict m),
        k ∈ CreateNewTransactions201Response.properties) ∧
      CreateNewTransactions201Response.properties =
        CreateNewTransactions201Response.memoryFieldNames := by
  rcases m with ⟨ts, sk⟩
  rcases sk with _ | xs <;>
    simp [CreateNewTransactions201Response.to_dict, jsonKeys,
      CreateNewTransactions201Response.properties,
      CreateNewTransactions201Response.memoryFieldNames]

theorem to_wire_omits_unset_witness :
    exModel.skipped_existing_external_ids = none ∧
      jsonKeys (CreateNewTransactions201Response.to_dict exModel) = ["transactions"] :=
  ⟨rfl, (to_wire_omits_unset exModel).1 rfl⟩

theorem serverGroup_created {rate : String → ℤ} {s s1 : ServerState}
    {ids : List ℤ} {g : Txn}
    (h : serverGroup rate s ids = (s1, GroupOutcome.created g)) :
    ¬ ids.length < 2 ∧ ids.all (okToGroup s) = true ∧
      g.id = s.next_id ∧ g.parent_id = none ∧ g.group_id = none ∧
      g.is_group = true ∧ g.children = ids ∧
      (sameCurrencyList (ids.filterMap (findTxn s)) = true →
        g.amount = ((ids.filterMap (findTxn s)).map Txn.amount).sum ∧
          g.currency = firstCurrency (ids.filterMap (findTxn s)) s.default_currency) ∧
      (sameCurrencyList (ids.filterMap (findTxn s)) = false →
        g.amount = ((ids.filterMap (findTxn s)).map
              (convertedAmount rate s.default_currency)).sum ∧
          g.currency = s.default_currency) ∧
      s1.txns = s.txns.map (updChild s.next_id ids) ++ [g] ∧
      s1.next_id = s.next_id + 1 ∧ s1.default_currency = s.default_currency := by
  unfold serverGroup at h
  by_cases hlen : ids.length < 2
  · rw [if_pos hlen] at h
    exact absurd (congrArg Prod.snd h) (by simp)
  rw [if_neg hlen] at h
  by_cases hall : ids.all (okToGroup s) = true
  · rw [if_pos hall] at h
    injection h with h1 h2
    injection h2 with h2
    subst h1
    subst h2
    cases hsame : sameCurrencyList (ids.filterMap (findTxn s)) with
    | true =>
        refine ⟨hlen, hall, rfl, rfl, rfl, rfl, rfl, fun _ => ?_, fun hc => ?_, rfl, rfl, rfl⟩
        · exact ⟨by simp, by simp⟩
        · exact Bool.noConfusion hc
    | false =>
        refine ⟨hlen, hall, rfl, rfl, rfl, rfl, rfl, fun hc => ?_, fun _ => ?_, rfl, rfl, rfl⟩
        · exact Bool.noConfusion hc
        · exact ⟨by simp, by simp⟩
  · rw [if_neg hall] at h
    exact absurd (congrArg Prod.snd h) (by simp)

/-- Claim C3: for every successful group call, the amount of the returned
grouped transaction equals the sum of the children's amounts; when the
children have mixed currencies the amounts are converted to the user's
default currency and the group is denominated in it. -/
theorem group_amount_is_sum_of_children (rate : String → ℤ) (s s1 : ServerState)
    (ids : List ℤ) (t : Txn)
    (h : serverGroup rate s ids = (s1, GroupOutcome.created t)) :
    (sameCurrencyList (ids.filterMap (findTxn s)) = true →
        t.amount = (ids.map (fun i => ((findTxn s i).map Txn.amount).getD 0)).sum ∧
          t.currency = firstCurrency (ids.filterMap (findTxn s)) s.default_currency) ∧
      (sameCurrencyList (ids.filterMap (findTxn s)) = false →
        t.amount = (ids.map (fun i =>
            ((findTxn s i).map (convertedAmount rate s.default_currency)).getD 0)).sum ∧
          t.currency = s.default_currency) := by
  obtain ⟨-, hall, -, -, -, -, -, hsame, hmixed, -, -, -⟩ := serverGroup_created h
  constructor
  · intro hc
    obtain ⟨ha, hcur⟩ := hsame hc
    exact ⟨by rw [ha, map_filterMap_findTxn s Txn.amount ids hall], hcur⟩
  · intro hc
    obtain ⟨ha, hcur⟩ := hmixed hc
    exact ⟨by rw [ha, map_filterMap_findTxn s _ ids hall], hcur⟩

theorem group_amount_is_sum_of_children_witness :
    serverGroup exRate exAmountState [10, 11] =
        (exAmountStateGrouped, GroupOutcome.created exAmountGroup) ∧
      sameCurrencyList ([10, 11].filterMap (findTxn exAmountState)) = true ∧
      exAmountGroup.amount = 800 ∧ exAmountGroup.currency = "USD" := by
  refine ⟨by decide, by decide, ?_, by decide⟩
  have h := (group_amount_is_sum_of_children exRate exAmountState
    exAmountStateGrouped [10, 11] exAmountGroup (by decide)).1 (by decide)
  rw [h.1]
  decide

/-- Claim C4: an ungroup call issues DELETE on `/transactions/group/{id}`
with the id as path parameter; the client maps 204 to no content (`None`) and
404 to the typed error object; on the server, an existing group id succeeds
with 204, a non-group id fails with not-found, and after a first success every
repeated call with the same id fails with not-found. -/
theorem ungroup_contract
    (sa : List String → Option String) (hs : List (String × String))
    (s : ServerState) (gid : ℤ) :
    (ungroup_transactions_serialize sa hs gid).method = "DELETE" ∧
      (ungroup_transactions_serialize sa hs gid).resource_path =
        "/transactions/group/\x7bid\x7d" ∧
      (ungroup_transactions_serialize sa hs gid).path_params = [("id", gid)] ∧
      List.lookup "204" ungroup_transactions_response_types_map = some none ∧
      List.lookup "404" ungroup_transactions_response_types_map =
        some (some "ErrorResponseObject") ∧
      ((∃ g ∈ s.txns, g.id = gid ∧ g.is_group = true) →
        (serverUngroup s gid).2 = UngroupOutcome.noContent) ∧
      ((∀ g ∈ s.txns, ¬(g.id = gid ∧ g.is_group = true)) →
        (serverUngroup s gid).2 = UngroupOutcome.notFound) ∧
      ((serverUngroup s gid).2 = UngroupOutcome.noContent →
        (serverUngroup (serverUngroup s gid).1 gid).2 = UngroupOutcome.notFound) := by
  refine ⟨rfl, rfl, rfl, by rfl, by rfl, ?_, ?_, ?_⟩
  · rintro ⟨g, hg, hgid, hgrp⟩
    cases hf : s.txns.find? (fun t => t.id == gid && t.is_group) with
    | none =>
        rw [List.find?_eq_none] at hf
        exact absurd (by simp [hgid, hgrp]) (hf g hg)
    | some g0 => simp [serverUngroup, hf]
  · intro hno
    have hf : s.txns.find? (fun t => t.id == gid && t.is_group) = none := by
      rw [List.find?_eq_none]
      intro t ht
      have hnt := hno t ht
      simp only [Bool.and_eq_true, beq_iff_eq, not_and]
      intro h1 h2
      exact hnt ⟨h1, h2⟩
    simp [serverUngroup, hf]
  · intro hsucc
    cases hf : s.txns.find? (fun t => t.id == gid && t.is_group) with
    | none => simp [serverUngroup, hf] at hsucc
    | some g0 =>
        have hs1 : (serverUngroup s gid).1 =
            ⟨(s.txns.filter (fun t => t.id != gid)).map (clearChild gid),
              s.next_id, s.default_currency⟩ := by
          simp [serverUngroup, hf]
        rw [hs1]
        have hnone : ((s.txns.filter (fun t => t.id != gid)).map
            (clearChild gid)).find? (fun t => t.id == gid && t.is_group) = none := by
          rw [List.find?_eq_none]
          intro t ht
          obtain ⟨u, hu, rfl⟩ := List.mem_map.mp ht
          have hu2 := (List.mem_filter.mp hu).2
          rw [bne_iff_ne] at hu2
          simp [Bool.and_eq_true, clearChild_id, hu2]
        simp [serverUngroup, hnone]

theorem ungroup_contract_witness :
    (∃ g ∈ exStateGrouped.txns, g.id = 4 ∧ g.is_group = true) ∧
      (serverUngroup exStateGrouped 4).2 = UngroupOutcome.noContent ∧
      (serverUngroup (serverUngroup exStateGrouped 4).1 4).2 =
        UngroupOutcome.notFound := by
  have hex : ∃ g ∈ exStateGrouped.txns, g.id = 4 ∧ g.is_group = true :=
    ⟨exGroupTxn, by decide, by decide, by decide⟩
  have h := ungroup_contract (fun _ => some "application/json") [] exStateGrouped 4
  have h1 := h.2.2.2.2.2.1 hex
  exact ⟨hex, h1, h.2.2.2.2.2.2.2 h1⟩

/-- Claim C8: after a successful group of a set of ids, a standard listing
call no longer returns those transactions individually but contains one new
grouped transaction whose `children` is exactly those ids, while each child
remains addressable by id; after the subsequent successful ungroup of the
group's id, that id is no longer resolvable and the child ids reappear in
listings with no `parent_id`. Wellformedness is preserved by both steps, so
the hypothesis holds in every state reachable by group and ungroup calls. -/
theorem group_ungroup_listing_invariant (rate : String → ℤ) (s s1 : ServerState)
    (ids : List ℤ) (g : Txn) (hwf : s.wf)
    (h : serverGroup rate s ids = (s1, GroupOutcome.created g)) :
    (∀ i ∈ ids, ∀ t ∈ listing s1, t.id ≠ i) ∧
      g ∈ listing s1 ∧ g.children = ids ∧ g.is_group = true ∧
      (∀ i ∈ ids, ∃ c, findTxn s1 i = some c ∧ c.id = i ∧ c.parent_id = some g.id) ∧
      s1.wf ∧
      (serverUngroup s1 g.id).2 = UngroupOutcome.noContent ∧
      findTxn (serverUngroup s1 g.id).1 g.id = none ∧
      (∀ i ∈ ids, ∃ t ∈ listing (serverUngroup s1 g.id).1,
        t.id = i ∧ t.parent_id = none) ∧
      (serverUngroup s1 g.id).1.wf := by
  obtain ⟨hlen, hall, hgid, hgpar, hggrp, hgis, hgch, -, -, htxns, hnext, -⟩ :=
    serverGroup_created h
  have hok : ∀ i ∈ ids, okToGroup s i = true := List.all_eq_true.mp hall
  have hbound : ∀ i ∈ ids, i < s.next_id := by
    intro i hi
    obtain ⟨c, -, hcmem, hcid, -, -⟩ := okToGroup_spec (hok i hi)
    exact hcid ▸ hwf c hcmem
  have hexcl : ∀ i ∈ ids, ∀ t ∈ listing s1, t.id ≠ i := by
    intro i hi t ht hti
    have htmem := (List.mem_filter.mp ht).1
    have htpar : t.parent_id = none := by
      have := (List.mem_filter.mp ht).2
      simpa using this
    rw [htxns] at htmem
    rcases List.mem_append.mp htmem with hmem | hmem
    · obtain ⟨u, hu, rfl⟩ := List.mem_map.mp hmem
      by_cases huid : u.id ∈ ids
      · have hpar : (updChild s.next_id ids u).parent_id = some s.next_id := by
          simp [updChild, huid]
        rw [hpar] at htpar
        exact Option.noConfusion htpar
      · have hsame : updChild s.next_id ids u = u := by simp [updChild, huid]
        rw [hsame] at hti
        rw [← hti] at hi
        exact huid hi
    · have hg : t = g := by simpa using hmem
      subst hg
      have hlt := hbound i hi
      rw [hgid] at hti
      omega
  have hglist : g ∈ listing s1 := by
    simp only [listing]
    apply List.mem_filter.mpr
    refine ⟨?_, by simp [hgpar]⟩
    rw [htxns]
    exact List.mem_append.mpr (Or.inr (by simp))
  have haddr : ∀ i ∈ ids, ∃ c, findTxn s1 i = some c ∧ c.id = i ∧
      c.parent_id = some g.id := by
    intro i hi
    obtain ⟨c, hfc, hcmem, hcid, hcpar, -⟩ := okToGroup_spec (hok i hi)
    have hcin : c.id ∈ ids := hcid ▸ hi
    refine ⟨updChild s.next_id ids c, ?_, ?_, ?_⟩
    · rw [findTxn] at hfc ⊢
      rw [htxns, List.find?_append,
        find?_id_map _ (updChild_id s.next_id ids) s.txns i, hfc]
      rfl
    · rw [updChild_id]; exact hcid
    · simp [updChild, hcin, hgid]
  have hwf1 : s1.wf := by
    intro t ht
    rw [htxns] at ht
    rw [hnext]
    rcases List.mem_append.mp ht with hmem | hmem
    · obtain ⟨u, hu, rfl⟩ := List.mem_map.mp hmem
      have := hwf u hu
      rw [updChild_id]
      omega
    · have hg : t = g := by simpa using hmem
      subst hg
      rw [hgid]
      omega
  have hg1 : g ∈ s1.txns := by
    rw [htxns]
    exact List.mem_append.mpr (Or.inr (by simp))
  cases hf : s1.txns.find? (fun t => t.id == g.id && t.is_group) with
  | none =>
      rw [List.find?_eq_none] at hf
      exact absurd (by simp [hgis]) (hf g hg1)
  | some g0 =>
      have hs2 : serverUngroup s1 g.id =
          ({ txns := (s1.txns.filter (fun t => t.id != g.id)).map (clearChild g.id),
             next_id := s1.next_id, default_currency := s1.default_currency },
            UngroupOutcome.noContent) := by
        simp [serverUngroup, hf]
      have hnores : findTxn (serverUngroup s1 g.id).1 g.id = none := by
        rw [hs2, findTxn, List.find?_eq_none]
        intro t ht
        obtain ⟨u, hu, rfl⟩ := List.mem_map.mp ht
        have hu2 := (List.mem_filter.mp hu).2
        rw [bne_iff_ne] at hu2
        simp [clearChild_id, hu2]
      have hreapp : ∀ i ∈ ids, ∃ t ∈ listing (serverUngroup s1 g.id).1,
          t.id = i ∧ t.parent_id = none := by
        intro i hi
        obtain ⟨c, hfc, hcmem, hcid, hcpar, -⟩ := okToGroup_spec (hok i hi)
        have hcin : c.id ∈ ids := hcid ▸ hi
        have hc1 : updChild s.next_id ids c ∈ s1.txns := by
          rw [htxns]
          exact List.mem_append.mpr (Or.inl (List.mem_map.mpr ⟨c, hcmem, rfl⟩))
        have hcne : ((updChild s.next_id ids c).id != g.id) = true := by
          rw [bne_iff_ne, updChild_id, hcid, hgid]
          exact ne_of_lt (hbound i hi)
        have hcparent : (updChild s.next_id ids c).parent_id = some g.id := by
          simp [updChild, hcin, hgid]
        refine ⟨clearChild g.id (updChild s.next_id ids c), ?_, ?_, ?_⟩
        · rw [hs2]
          simp only [listing]
          apply List.mem_filter.mpr
          constructor
          · exact List.mem_map.mpr
              ⟨updChild s.next_id ids c, List.mem_filter.mpr ⟨hc1, hcne⟩, rfl⟩
          · simp [clearChild, hcparent]
        · rw [clearChild_id, updChild_id]; exact hcid
        · simp [clearChild, hcparent]
      have hwf2 : (serverUngroup s1 g.id).1.wf := by
        rw [hs2]
        intro t ht
        obtain ⟨u, hu, rfl⟩ := List.mem_map.mp ht
        have hu1 := (List.mem_filter.mp hu).1
        have := hwf1 u hu1
        rw [clearChild_id]
        exact this
      refine ⟨hexcl, hglist, hgch, hgis, haddr, hwf1, ?_, hnores, hreapp, hwf2⟩
      rw [hs2]

theorem group_ungroup_listing_invariant_witness :
    exState.wf ∧
      serverGroup exRate exState [1, 2, 3] =
        (exStateGrouped, GroupOutcome.created exGroupTxn) ∧
      (∀ i ∈ ([1, 2, 3] : List ℤ), ∀ t ∈ listing exStateGrouped, t.id ≠ i) ∧
      exGroupTxn ∈ listing exStateGrouped ∧
      (serverUngroup exStateGrouped exGroupTxn.id).2 = UngroupOutcome.noContent ∧
      findTxn (serverUngroup exStateGrouped exGroupTxn.id).1 exGroupTxn.id = none ∧
      (∀ i ∈ ([1, 2, 3] : List ℤ),
        ∃ t ∈ listing (serverUngroup exStateGrouped exGroupTxn.id).1,
          t.id = i ∧ t.parent_id = none) := by
  have h := group_ungroup_listing_invariant exRate exState exStateGrouped [1, 2, 3]
    exGroupTxn (by decide) (by decide)
  exact ⟨by decide, by decide, h.1, h.2.1, h.2.2.2.2.2.2.1,
    h.2.2.2.2.2.2.2.1, h.2.2.2.2.2.2.2.2.1⟩
